import Mathlib

/-!
Verification of the transform-composition and tagged-resource-registry
subsystem of the CS330 scene renderer (`Source/SceneManager.cpp`).

The C++ code is shallowly embedded: float arithmetic is modelled over `ℚ`
(all properties checked here are structural, not about rounding), GL state
calls are modelled as updates on an explicit `RenderPassState`, and the
shader-manager pointer is modelled as an `Option` so that a null-pointer
dereference is observable as `none`.
-/

/-- Embedding of `glm::vec3`, components over `ℚ`. -/
structure Vec3 where
  x : ℚ
  y : ℚ
  z : ℚ
deriving DecidableEq

/-- A homogeneous 4-component vector. -/
structure Vec4 where
  x : ℚ
  y : ℚ
  z : ℚ
  w : ℚ
deriving DecidableEq

/-- Embedding of `glm::mat4`, stored here as four rows (row-major presentation of the
same linear map glm stores column-major). -/
structure Mat4 where
  r0 : Vec4
  r1 : Vec4
  r2 : Vec4
  r3 : Vec4
deriving DecidableEq

/-- Dot product of two 4-vectors. -/
def dot4 (a b : Vec4) : ℚ :=
  a.x * b.x + a.y * b.y + a.z * b.z + a.w * b.w

/-- Column `j`-extraction helpers for matrix multiplication. -/
def Mat4.col0 (m : Mat4) : Vec4 := ⟨m.r0.x, m.r1.x, m.r2.x, m.r3.x⟩

def Mat4.col1 (m : Mat4) : Vec4 := ⟨m.r0.y, m.r1.y, m.r2.y, m.r3.y⟩

def Mat4.col2 (m : Mat4) : Vec4 := ⟨m.r0.z, m.r1.z, m.r2.z, m.r3.z⟩

def Mat4.col3 (m : Mat4) : Vec4 := ⟨m.r0.w, m.r1.w, m.r2.w, m.r3.w⟩

/-- Matrix product (`glm` `operator*`). -/
def mat4Mul (m n : Mat4) : Mat4 :=
  ⟨⟨dot4 m.r0 n.col0, dot4 m.r0 n.col1, dot4 m.r0 n.col2, dot4 m.r0 n.col3⟩,
   ⟨dot4 m.r1 n.col0, dot4 m.r1 n.col1, dot4 m.r1 n.col2, dot4 m.r1 n.col3⟩,
   ⟨dot4 m.r2 n.col0, dot4 m.r2 n.col1, dot4 m.r2 n.col2, dot4 m.r2 n.col3⟩,
   ⟨dot4 m.r3 n.col0, dot4 m.r3 n.col1, dot4 m.r3 n.col2, dot4 m.r3 n.col3⟩⟩

instance : Mul Mat4 := ⟨mat4Mul⟩

theorem Mat4.mul_def (m n : Mat4) : m * n = mat4Mul m n := rfl

/-- Matrix-vector application (how a model matrix maps a homogeneous point). -/
def mulVec4 (m : Mat4) (v : Vec4) : Vec4 :=
  ⟨dot4 m.r0 v, dot4 m.r1 v, dot4 m.r2 v, dot4 m.r3 v⟩

/-- Embedding of `glm::scale(scaleXYZ)`. -/
def scaleMat (v : Vec3) : Mat4 :=
  ⟨⟨v.x, 0, 0, 0⟩, ⟨0, v.y, 0, 0⟩, ⟨0, 0, v.z, 0⟩, ⟨0, 0, 0, 1⟩⟩

/-- Embedding of `glm::rotate(θ, vec3(1,0,0))` with `c = cos θ`, `s = sin θ` supplied as
parameters (the trigonometric evaluation is the math library's job; the
callers in the theorems below pass the exact cosine/sine of the angle the
source passes in). -/
def rotXMat (c s : ℚ) : Mat4 :=
  ⟨⟨1, 0, 0, 0⟩, ⟨0, c, -s, 0⟩, ⟨0, s, c, 0⟩, ⟨0, 0, 0, 1⟩⟩

/-- Embedding of `glm::rotate(θ, vec3(0,1,0))` with `c = cos θ`, `s = sin θ`. -/
def rotYMat (c s : ℚ) : Mat4 :=
  ⟨⟨c, 0, s, 0⟩, ⟨0, 1, 0, 0⟩, ⟨-s, 0, c, 0⟩, ⟨0, 0, 0, 1⟩⟩

/-- Embedding of `glm::rotate(θ, vec3(0,0,1))` with `c = cos θ`, `s = sin θ`. -/
def rotZMat (c s : ℚ) : Mat4 :=
  ⟨⟨c, -s, 0, 0⟩, ⟨s, c, 0, 0⟩, ⟨0, 0, 1, 0⟩, ⟨0, 0, 0, 1⟩⟩

/-- Embedding of `glm::translate(positionXYZ)`. -/
def translateMat (p : Vec3) : Mat4 :=
  ⟨⟨1, 0, 0, p.x⟩, ⟨0, 1, 0, p.y⟩, ⟨0, 0, 1, p.z⟩, ⟨0, 0, 0, 1⟩⟩

/-- The `modelView` matrix computed by `SceneManager::SetTransformations`
(SceneManager.cpp:291-307): `translation * rotationZ * rotationY *
rotationX * scale`, with each rotation's cosine/sine passed in for its
radian angle (`cx,sx` for the X rotation, `cy,sy` for Y, `cz,sz` for Z). -/
def setTransformationsMatrix (scaleXYZ : Vec3) (cx sx cy sy cz sz : ℚ)
    (positionXYZ : Vec3) : Mat4 :=
  translateMat positionXYZ * rotZMat cz sz * rotYMat cy sy * rotXMat cx sx *
    scaleMat scaleXYZ

/-- C1: the Transform Composer builds the model matrix as
`Translate(position) * RotateZ * RotateY * RotateX * Scale`, and for scale
(2,1,1), rotation (0°,90°,0°) (so `cos = 1, sin = 0` for X and Z and
`cos = 0, sin = 1` for Y), position (1,0,0), the matrix maps the local
point (1,0,0) to the world point (1,0,-2) — exactly, in the rational
model. -/
theorem setTransformations_compose_order_and_example :
    (∀ (s : Vec3) (cx sx cy sy cz sz : ℚ) (p : Vec3),
      setTransformationsMatrix s cx sx cy sy cz sz p =
        translateMat p * rotZMat cz sz * rotYMat cy sy * rotXMat cx sx *
          scaleMat s) ∧
    mulVec4 (setTransformationsMatrix ⟨2, 1, 1⟩ 1 0 0 1 1 0 ⟨1, 0, 0⟩)
        ⟨1, 0, 0, 1⟩ = ⟨1, 0, -2, 1⟩ := by
  constructor
  · intro s cx sx cy sy cz sz p
    rfl
  · norm_num [setTransformationsMatrix, mulVec4, dot4, translateMat, rotZMat,
      rotYMat, rotXMat, scaleMat, Mat4.mul_def, mat4Mul, Mat4.col0,
      Mat4.col1, Mat4.col2, Mat4.col3]

/-- One entry of the texture registry: `m_textureIDs[i]`
(`{ GLuint ID; std::string tag; }`); the GL texture name is modelled as a
`Nat`. -/
structure TextureEntry where
  ID : Nat
  tag : String
deriving DecidableEq

/-- The data `stbi_load` hands back on success; only the channel count
steers `CreateGLTexture`. -/
structure ImageData where
  width : Int
  height : Int
  channels : Int
deriving DecidableEq

/-- Embedding of `OBJECT_MATERIAL`: tag, diffuse color, specular color, shininess. -/
structure OBJECT_MATERIAL where
  tag : String
  diffuseColor : Vec3
  specularColor : Vec3
  shininess : ℚ
deriving DecidableEq

/-- The shader uniforms the Shader State Binder writes
(`model`, `bUseTexture`, `objectColor`, `objectTexture` sampler,
`UVscale`, and the three `material.*` uniforms). -/
structure ShaderUniforms where
  model : Mat4
  useTexture : Bool
  objectColor : Vec4
  sampler : Int
  uvScaleU : ℚ
  uvScaleV : ℚ
  materialDiffuse : Vec3
  materialSpecular : Vec3
  materialShininess : ℚ
deriving DecidableEq

/-- The `SceneManager` fields the claims touch: `m_pShaderManager`
(modelled as `Option` — `none` is a null pointer), `m_textureIDs` together
with `m_loadedTextures` (a list; its length is the counter), and
`m_objectMaterials`. -/
structure SceneState where
  shader : Option ShaderUniforms
  textureIDs : List TextureEntry
  objectMaterials : List OBJECT_MATERIAL
deriving DecidableEq

/-- A `SceneManager` with nothing loaded and a null shader pointer. -/
def emptyScene : SceneState := ⟨none, [], []⟩

/-- Embedding of `SceneManager::CreateGLTexture` (SceneManager.cpp:96-160). `img` is
what `stbi_load` returned (`none` = decode failure), `genID` the name
`glGenTextures` produced. On success the entry is registered at index
`m_loadedTextures` and the counter incremented; on decode failure or an
unsupported channel count nothing is registered. -/
def CreateGLTexture (st : SceneState) (img : Option ImageData) (genID : Nat)
    (tag : String) : Bool × SceneState :=
  match img with
  | none => (false, st)
  | some image =>
    if image.channels = 3 ∨ image.channels = 4 then
      (true, { st with textureIDs := st.textureIDs ++ [⟨genID, tag⟩] })
    else
      (false, st)

/-- The loop body of `DestroyGLTextures`, indexed by the running `i`:
slot `i` gets the freshly generated name `gen i`. -/
def destroyLoop (gen : Nat → Nat) : List TextureEntry → Nat → List TextureEntry
  | [], _ => []
  | e :: rest, i => { e with ID := gen i } :: destroyLoop gen rest (i + 1)

/-- Embedding of `SceneManager::DestroyGLTextures` (SceneManager.cpp:184-190): for each
registered slot it calls `glGenTextures(1, &m_textureIDs[i].ID)`, i.e. it
overwrites the stored name with a freshly generated one (`gen i`); it
neither deletes the old texture nor resets `m_loadedTextures`. -/
def DestroyGLTextures (st : SceneState) (gen : Nat → Nat) : SceneState :=
  { st with textureIDs := destroyLoop gen st.textureIDs 0 }

/-- The scan loop of `SceneManager::FindTextureSlot`
(SceneManager.cpp:230-239), carrying the running `index`. -/
def findTextureSlotLoop : List TextureEntry → String → Int → Int
  | [], _, _ => -1
  | e :: rest, tag, index =>
    if e.tag = tag then index else findTextureSlotLoop rest tag (index + 1)

/-- Embedding of `SceneManager::FindTextureSlot` (SceneManager.cpp:224-242): linear
scan, first match wins, `-1` when the tag is absent. -/
def FindTextureSlot (entries : List TextureEntry) (tag : String) : Int :=
  findTextureSlotLoop entries tag 0

/-- The scan loop of `SceneManager::FindMaterial`
(SceneManager.cpp:257-272): the first matching entry copies its diffuse
color, specular color and shininess (not the tag) into the out-parameter
`material`; with no match the out-parameter is left untouched. -/
def findMaterialLoop : List OBJECT_MATERIAL → String → OBJECT_MATERIAL →
    OBJECT_MATERIAL
  | [], _, material => material
  | e :: rest, tag, material =>
    if e.tag = tag then
      { material with diffuseColor := e.diffuseColor,
                      specularColor := e.specularColor,
                      shininess := e.shininess }
    else
      findMaterialLoop rest tag material

/-- Embedding of `SceneManager::FindMaterial` (SceneManager.cpp:250-275): returns
`false` only when `m_objectMaterials` is empty; otherwise it runs the scan
and returns `true` regardless of whether the scan matched (the returned
boolean is not tied to the loop's `bFound`). -/
def FindMaterial (mats : List OBJECT_MATERIAL) (tag : String)
    (material : OBJECT_MATERIAL) : Bool × OBJECT_MATERIAL :=
  if mats.length = 0 then
    (false, material)
  else
    (true, findMaterialLoop mats tag material)

/-- Embedding of `SceneManager::SetTransformations` (SceneManager.cpp:283-313): builds
`modelView` and writes the `model` uniform only when `m_pShaderManager`
is non-null. `none` would mean a null dereference; this method never
produces it. -/
def SetTransformations (st : SceneState) (scaleXYZ : Vec3)
    (cx sx cy sy cz sz : ℚ) (positionXYZ : Vec3) : Option SceneState :=
  let modelView := setTransformationsMatrix scaleXYZ cx sx cy sy cz sz positionXYZ
  match st.shader with
  | none => some st
  | some u => some { st with shader := some { u with model := modelView } }

/-- Embedding of `SceneManager::SetShaderColor` (SceneManager.cpp:321-340): when the
shader pointer is non-null, sets `bUseTexture` to false and writes the
`objectColor` uniform; a null pointer is a guarded no-op. -/
def SetShaderColor (st : SceneState) (r g b a : ℚ) : Option SceneState :=
  match st.shader with
  | none => some st
  | some u =>
    some { st with shader := some { u with useTexture := false,
                                           objectColor := ⟨r, g, b, a⟩ } }

/-- Embedding of `SceneManager::SetShaderTexture` (SceneManager.cpp:348-359): when the
shader pointer is non-null, sets `bUseTexture` to true and writes the slot
`FindTextureSlot` resolved (possibly `-1`) as the sampler uniform; a null
pointer is a guarded no-op. -/
def SetShaderTexture (st : SceneState) (textureTag : String) :
    Option SceneState :=
  match st.shader with
  | none => some st
  | some u =>
    some { st with shader := some { u with useTexture := true,
                                           sampler := FindTextureSlot st.textureIDs textureTag } }

/-- Embedding of `SceneManager::SetTextureUVScale` (SceneManager.cpp:367-373): writes
the `UVscale` uniform when the shader pointer is non-null; a null pointer
is a guarded no-op. -/
def SetTextureUVScale (st : SceneState) (u v : ℚ) : Option SceneState :=
  match st.shader with
  | none => some st
  | some uni =>
    some { st with shader := some { uni with uvScaleU := u, uvScaleV := v } }

/-- Embedding of `SceneManager::SetShaderMaterial` (SceneManager.cpp:381-397):
`localMat` models the freshly declared local `OBJECT_MATERIAL material`
(its contents are indeterminate in C++, so they are a parameter here).
When the registry is non-empty and `FindMaterial` reports found, the three
`material.*` uniforms are written through `m_pShaderManager` with **no**
null check — a null pointer there is a dereference, modelled as `none`. -/
def SetShaderMaterial (st : SceneState) (materialTag : String)
    (localMat : OBJECT_MATERIAL) : Option SceneState :=
  if st.objectMaterials.length > 0 then
    let r := FindMaterial st.objectMaterials materialTag localMat
    if r.1 then
      match st.shader with
      | none => none
      | some u =>
        some { st with shader := some { u with
                 materialDiffuse := r.2.diffuseColor,
                 materialSpecular := r.2.specularColor,
                 materialShininess := r.2.shininess } }
    else
      some st
  else
    some st

/-- Embedding of `SceneManager::DefineObjectMaterials` (SceneManager.cpp:428-501):
appends the nine built-in materials, in source order, to
`m_objectMaterials`. -/
def DefineObjectMaterials (mats : List OBJECT_MATERIAL) :
    List OBJECT_MATERIAL :=
  mats ++
    [⟨"copper", ⟨0.72, 0.43, 0.20⟩, ⟨0.95, 0.70, 0.45⟩, 256⟩,
     ⟨"plasticBlack", ⟨0.06, 0.06, 0.06⟩, ⟨0.20, 0.20, 0.20⟩, 8⟩,
     ⟨"glass", ⟨0.55, 0.60, 0.70⟩, ⟨1.5, 1.5, 1.5⟩, 160⟩,
     ⟨"floorMat", ⟨0.22, 0.22, 0.24⟩, ⟨0.85, 0.85, 0.90⟩, 128⟩,
     ⟨"wallMat", ⟨0.60, 0.55, 0.45⟩, ⟨0.02, 0.02, 0.02⟩, 4⟩,
     ⟨"zebraMat", ⟨0.9, 0.9, 0.9⟩, ⟨0.2, 0.2, 0.2⟩, 10⟩,
     ⟨"mirrorMat", ⟨0.75, 0.75, 0.75⟩, ⟨1.0, 1.0, 1.0⟩, 256⟩,
     ⟨"chevronMat", ⟨0.85, 0.85, 0.85⟩, ⟨0.15, 0.15, 0.15⟩, 12⟩,
     ⟨"boxFurMat", ⟨0.60, 0.60, 0.60⟩, ⟨0.20, 0.20, 0.20⟩, 10⟩]

/-- The material-registry state `SceneManager::PrepareScene`
(SceneManager.cpp:607-632) produces: `DefineObjectMaterials()` is invoked
**twice** (once at line 612 and again at line 628); the texture loads,
mesh loads and light setup in between never touch `m_objectMaterials`. -/
def PrepareSceneMaterials : List OBJECT_MATERIAL :=
  DefineObjectMaterials (DefineObjectMaterials [])

/-- Loading a list of tags in order into an empty registry, every load
succeeding (a decodable 3-channel image each time); GL names are
irrelevant to slots and fixed at 0. -/
def loadTagsFromEmpty (tags : List String) : SceneState :=
  tags.foldl (fun st t => (CreateGLTexture st (some ⟨8, 8, 3⟩) 0 t).2)
    emptyScene

/-- The `glBlendFunc` factors used by `RenderScene`. -/
inductive BlendFactor where
  | srcAlpha
  | oneMinusSrcAlpha
  | one
deriving DecidableEq

/-- The `glCullFace` modes used by `RenderScene`. -/
inductive CullFaceMode where
  | back
  | front
deriving DecidableEq

/-- The GPU render-pass flags `RenderScene` toggles: blending
enable/factors, depth write, depth test, face culling enable/mode, and the
`bUseLighting` shader flag. -/
structure RenderPassState where
  blendEnabled : Bool
  blendSrc : BlendFactor
  blendDst : BlendFactor
  depthWriteEnabled : Bool
  depthTestEnabled : Bool
  cullEnabled : Bool
  cullFace : CullFaceMode
  lightingEnabled : Bool
deriving DecidableEq

/-- The opaque-baseline reset at the top of `SceneManager::RenderScene`
(SceneManager.cpp:691-696): blending off, standard blend factors, depth
writes on, lighting on, depth test on, culling off. (`glCullFace` is not
touched here.) -/
def opaqueReset (s : RenderPassState) : RenderPassState :=
  { s with blendEnabled := false,
           blendSrc := BlendFactor.srcAlpha,
           blendDst := BlendFactor.oneMinusSrcAlpha,
           depthWriteEnabled := true,
           lightingEnabled := true,
           depthTestEnabled := true,
           cullEnabled := false }

/-- The glass-shade translucent pass (SceneManager.cpp:1852-1898), one GL
call per step: enable blend, standard factors, stop depth writes, enable
culling, cull back/front/back across the three glass draws, then the
explicit restore — culling off, depth writes back on. Blending is **not**
disabled in the restore. -/
def glassShadePass (s : RenderPassState) : RenderPassState :=
  let s := { s with blendEnabled := true }
  let s := { s with blendSrc := BlendFactor.srcAlpha,
                    blendDst := BlendFactor.oneMinusSrcAlpha }
  let s := { s with depthWriteEnabled := false }
  let s := { s with cullEnabled := true }
  let s := { s with cullFace := CullFaceMode.back }
  let s := { s with cullFace := CullFaceMode.front }
  let s := { s with cullFace := CullFaceMode.back }
  let s := { s with cullEnabled := false }
  let s := { s with depthWriteEnabled := true }
  s

/-- The bulb-halo emissive overlay (SceneManager.cpp:1903-1918): stop
depth writes, disable depth test, enable blend, additive factors, lighting
off for the emissive draw, then the restore — lighting on, standard
factors, depth test on, depth writes on. Blending again stays enabled. -/
def bulbHaloPass (s : RenderPassState) : RenderPassState :=
  let s := { s with depthWriteEnabled := false }
  let s := { s with depthTestEnabled := false }
  let s := { s with blendEnabled := true }
  let s := { s with blendSrc := BlendFactor.one, blendDst := BlendFactor.one }
  let s := { s with lightingEnabled := false }
  let s := { s with lightingEnabled := true }
  let s := { s with blendSrc := BlendFactor.srcAlpha,
                    blendDst := BlendFactor.oneMinusSrcAlpha }
  let s := { s with depthTestEnabled := true }
  let s := { s with depthWriteEnabled := true }
  s

/-- The full Opaque→Translucent→Opaque tail of one `RenderScene` call:
the glass shade followed by the bulb halo (everything between the opaque
baseline and these blocks leaves the pass flags alone apart from the
bulb's paired lighting off/on at SceneManager.cpp:1827-1830). -/
def renderTranslucentSequence (s : RenderPassState) : RenderPassState :=
  bulbHaloPass (glassShadePass s)

/-! ### Helper lemmas about the linear scans -/

/-- A tag absent from the registry makes the texture-slot scan fall off
the end and keep its `-1` sentinel, whatever the running index. -/
theorem findTextureSlotLoop_absent (entries : List TextureEntry)
    (tag : String) (n : Int) (h : tag ∉ entries.map TextureEntry.tag) :
    findTextureSlotLoop entries tag n = -1 := by
  induction entries generalizing n with
  | nil => rfl
  | cons e rest ih =>
    simp only [List.map_cons, List.mem_cons, not_or] at h
    simp only [findTextureSlotLoop]
    rw [if_neg (fun he => h.1 he.symm)]
    exact ih (n + 1) h.2

/-- On a duplicate-free registry whose tag column is `ts`, the scan
started at running index `n` finds the `i`-th tag at `n + i`. -/
theorem findTextureSlotLoop_get (entries : List TextureEntry)
    (ts : List String) (n : Int) (i : Nat) (hi : i < ts.length)
    (hmap : entries.map TextureEntry.tag = ts) (hnd : ts.Nodup) :
    findTextureSlotLoop entries (ts.get ⟨i, hi⟩) n = n + i := by
  induction entries generalizing ts n i with
  | nil =>
    subst hmap
    exact absurd hi (by simp)
  | cons e rest ih =>
    subst hmap
    simp only [List.map_cons] at hnd hi ⊢
    cases i with
    | zero =>
      simp [findTextureSlotLoop]
    | succ j =>
      have hj : j < (rest.map TextureEntry.tag).length := by
        simpa using Nat.lt_of_succ_lt_succ hi
      have hne : e.tag ≠ (rest.map TextureEntry.tag).get ⟨j, hj⟩ := by
        intro he
        exact (List.nodup_cons.mp hnd).1 (he ▸ List.get_mem _ _ _)
      simp only [findTextureSlotLoop, List.get]
      rw [if_neg hne]
      rw [ih (rest.map TextureEntry.tag) (n + 1) j hj rfl
        (List.nodup_cons.mp hnd).2]
      push_cast
      ring

/-- Folding successful loads over a starting state appends one entry per
tag, in order. -/
theorem loadFold_textureIDs (tags : List String) (st : SceneState) :
    (tags.foldl (fun s t => (CreateGLTexture s (some ⟨8, 8, 3⟩) 0 t).2)
        st).textureIDs =
      st.textureIDs ++ tags.map (fun t => (⟨0, t⟩ : TextureEntry)) := by
  induction tags generalizing st with
  | nil => simp
  | cons t rest ih =>
    simp only [List.foldl_cons, List.map_cons]
    rw [ih]
    simp [CreateGLTexture]

/-- A tag absent from the material registry leaves the out-parameter of
the material scan untouched. -/
theorem findMaterialLoop_absent (mats : List OBJECT_MATERIAL)
    (tag : String) (m : OBJECT_MATERIAL)
    (h : tag ∉ mats.map OBJECT_MATERIAL.tag) :
    findMaterialLoop mats tag m = m := by
  induction mats with
  | nil => rfl
  | cons e rest ih =>
    simp only [List.map_cons, List.mem_cons, not_or] at h
    simp only [findMaterialLoop]
    rw [if_neg (fun he => h.1 he.symm)]
    exact ih h.2

/-! ### Claim theorems -/

/-- C3: `FindMaterial` returns `false` if and only if the material
registry is empty; on any non-empty registry it returns `true` for every
tag, matched or not, because the returned boolean is not tied to the
scan's `bFound`. -/
theorem findMaterial_false_iff_empty (mats : List OBJECT_MATERIAL)
    (tag : String) (m : OBJECT_MATERIAL) :
    (FindMaterial mats tag m).1 = false ↔ mats = [] := by
  cases mats <;> simp [FindMaterial]

/-- C5: loading any duplicate-free tag sequence into an empty registry
gives each texture the unit slot equal to its insertion index: `FindSlot`
on the `i`-th loaded tag returns `i`. -/
theorem textureSlot_equals_insertion_index (tags : List String)
    (hnd : tags.Nodup) (i : Nat) (hi : i < tags.length) :
    FindTextureSlot (loadTagsFromEmpty tags).textureIDs
      (tags.get ⟨i, hi⟩) = (i : Int) := by
  have hmap : (loadTagsFromEmpty tags).textureIDs.map TextureEntry.tag = tags := by
    unfold loadTagsFromEmpty
    rw [loadFold_textureIDs]
    simp [emptyScene, List.map_map, Function.comp_def]
  unfold FindTextureSlot
  rw [findTextureSlotLoop_get (loadTagsFromEmpty tags).textureIDs tags 0 i hi
    hmap hnd]
  simp

/-- Witness for C5: loading "A", "B", "C" in that order yields
`FindSlot("A") = 0`, `FindSlot("B") = 1`, `FindSlot("C") = 2`. -/
theorem textureSlot_equals_insertion_index_witness :
    FindTextureSlot (loadTagsFromEmpty ["A", "B", "C"]).textureIDs "A" = 0 ∧
    FindTextureSlot (loadTagsFromEmpty ["A", "B", "C"]).textureIDs "B" = 1 ∧
    FindTextureSlot (loadTagsFromEmpty ["A", "B", "C"]).textureIDs "C" = 2 :=
  ⟨textureSlot_equals_insertion_index ["A", "B", "C"] (by decide) 0 (by decide),
   textureSlot_equals_insertion_index ["A", "B", "C"] (by decide) 1 (by decide),
   textureSlot_equals_insertion_index ["A", "B", "C"] (by decide) 2 (by decide)⟩

/-- C6: an image whose decoded channel count is neither 3 nor 4 makes
`CreateGLTexture` return failure and leaves the whole scene state — in
particular the registry and its count — unchanged. -/
theorem createGLTexture_rejects_unsupported_channels (st : SceneState)
    (img : ImageData) (genID : Nat) (tag : String)
    (h3 : img.channels ≠ 3) (h4 : img.channels ≠ 4) :
    CreateGLTexture st (some img) genID tag = (false, st) := by
  simp [CreateGLTexture, h3, h4]

/-- Witness for C6: a 2-channel (grayscale+alpha) image is rejected and
registers nothing. -/
theorem createGLTexture_rejects_unsupported_channels_witness :
    CreateGLTexture emptyScene (some ⟨8, 8, 2⟩) 5 "gray" =
      (false, emptyScene) :=
  createGLTexture_rejects_unsupported_channels emptyScene ⟨8, 8, 2⟩ 5 "gray"
    (by decide) (by decide)

/-- C4 (evaluating the code at the failing input): load one texture
("A"), call `DestroyGLTextures`, then load "B". The destroy call leaves
the registry count at 1 and merely overwrites the stored name with a
fresh one (100), so the post-release load lands in slot 1, not slot 0. -/
theorem destroyGLTextures_does_not_reset_slots :
    (DestroyGLTextures
        (CreateGLTexture emptyScene (some ⟨8, 8, 3⟩) 41 "A").2
        (fun i => 100 + i)).textureIDs = [⟨100, "A"⟩] ∧
    (CreateGLTexture
        (DestroyGLTextures
          (CreateGLTexture emptyScene (some ⟨8, 8, 3⟩) 41 "A").2
          (fun i => 100 + i))
        (some ⟨8, 8, 3⟩) 42 "B").1 = true ∧
    FindTextureSlot
      (CreateGLTexture
        (DestroyGLTextures
          (CreateGLTexture emptyScene (some ⟨8, 8, 3⟩) 41 "A").2
          (fun i => 100 + i))
        (some ⟨8, 8, 3⟩) 42 "B").2.textureIDs "B" = 1 := by
  decide

/-- C7: for a tag not present in the texture registry, `FindTextureSlot`
returns the sentinel `-1`, and `SetShaderTexture` with that tag returns
normally (no crash), setting the use-texture flag to true and writing `-1`
as the sampler uniform. -/
theorem findSlot_miss_sentinel_and_setShaderTexture (st : SceneState)
    (u : ShaderUniforms) (tag : String) (hsh : st.shader = some u)
    (habs : tag ∉ st.textureIDs.map TextureEntry.tag) :
    FindTextureSlot st.textureIDs tag = -1 ∧
    SetShaderTexture st tag =
      some { st with shader := some { u with useTexture := true,
                                             sampler := -1 } } := by
  have hslot : FindTextureSlot st.textureIDs tag = -1 :=
    findTextureSlotLoop_absent st.textureIDs tag 0 habs
  refine ⟨hslot, ?_⟩
  rw [SetShaderTexture, hsh, hslot]

/-- A concrete shader-uniform block used by the C7 witness. -/
def c7Uniforms : ShaderUniforms :=
  ⟨scaleMat ⟨1, 1, 1⟩, false, ⟨0, 0, 0, 0⟩, 0, 1, 1, ⟨0, 0, 0⟩, ⟨0, 0, 0⟩, 0⟩

/-- A concrete scene with one loaded texture and a live shader, used by
the C7 witness. -/
def c7Scene : SceneState := ⟨some c7Uniforms, [⟨7, "A"⟩], []⟩

/-- Witness for C7: `FindSlot("nonexistent")` is -1 and the texture push
with a missing tag writes `useTexture := true`, `sampler := -1`. -/
theorem findSlot_miss_sentinel_and_setShaderTexture_witness :
    FindTextureSlot c7Scene.textureIDs "nonexistent" = -1 ∧
    SetShaderTexture c7Scene "nonexistent" =
      some { c7Scene with shader := some { c7Uniforms with
               useTexture := true, sampler := -1 } } :=
  findSlot_miss_sentinel_and_setShaderTexture c7Scene c7Uniforms
    "nonexistent" rfl (by decide)

/-- A concrete shader-uniform block whose previously pushed material
uniforms are all ones, used by the C8 theorems. -/
def c8Uniforms : ShaderUniforms :=
  ⟨scaleMat ⟨1, 1, 1⟩, false, ⟨0, 0, 0, 0⟩, 0, 1, 1, ⟨1, 1, 1⟩, ⟨1, 1, 1⟩, 32⟩

/-- A concrete scene with the nine built-in materials and a live shader,
used by the C8 theorems. -/
def c8Scene : SceneState := ⟨some c8Uniforms, [], DefineObjectMaterials []⟩

/-- One possible content of the uninitialized local `OBJECT_MATERIAL
material` in `SetShaderMaterial` (its value is indeterminate in C++). -/
def c8Junk : OBJECT_MATERIAL := ⟨"", ⟨0, 0, 0⟩, ⟨0, 0, 0⟩, 0⟩

/-- Shared evaluation lemma: with a live shader, a non-empty material
registry and an absent tag, `SetShaderMaterial` reports found and writes
the fields of the fresh local `OBJECT_MATERIAL` into the material
uniforms. -/
theorem setShaderMaterial_absent_writes_localMat (st : SceneState)
    (u : ShaderUniforms) (tag : String) (localMat : OBJECT_MATERIAL)
    (hsh : st.shader = some u) (hne : st.objectMaterials ≠ [])
    (habs : tag ∉ st.objectMaterials.map OBJECT_MATERIAL.tag) :
    SetShaderMaterial st tag localMat =
      some { st with shader := some { u with
               materialDiffuse := localMat.diffuseColor,
               materialSpecular := localMat.specularColor,
               materialShininess := localMat.shininess } } := by
  have hloop : findMaterialLoop st.objectMaterials tag localMat = localMat :=
    findMaterialLoop_absent _ _ _ habs
  have hlen : st.objectMaterials.length ≠ 0 := by
    simpa [List.length_eq_zero] using hne
  rw [SetShaderMaterial]
  simp only [FindMaterial, if_neg hlen, hloop, hsh]
  simp [Nat.pos_of_ne_zero hlen]

/-- C8 is false on the code: with a non-empty registry and a tag matching
no entry, `SetShaderMaterial` does **not** leave the previously pushed
material uniforms unchanged — `FindMaterial` still reports found and the
uniforms are overwritten with the (indeterminate) contents of the fresh
local, here changing the diffuse uniform from (1,1,1) to (0,0,0) and the
shininess from 32 to 0. -/
theorem setShaderMaterial_missing_tag_counterexample :
    SetShaderMaterial c8Scene "missing" c8Junk =
      some { c8Scene with shader := some { c8Uniforms with
               materialDiffuse := ⟨0, 0, 0⟩,
               materialSpecular := ⟨0, 0, 0⟩,
               materialShininess := 0 } } ∧
    SetShaderMaterial c8Scene "missing" c8Junk ≠ some c8Scene := by
  have heval : SetShaderMaterial c8Scene "missing" c8Junk =
      some { c8Scene with shader := some { c8Uniforms with
               materialDiffuse := ⟨0, 0, 0⟩,
               materialSpecular := ⟨0, 0, 0⟩,
               materialShininess := 0 } } :=
    setShaderMaterial_absent_writes_localMat c8Scene c8Uniforms "missing"
      c8Junk rfl (by decide) (by decide)
  refine ⟨heval, ?_⟩
  rw [heval]
  intro hcontra
  have h1 : (1 : ℚ) = 0 := by
    have := congrArg
      (fun s? => (Option.map
        (fun s => (s.shader.map ShaderUniforms.materialShininess).getD 1)
        s?).getD 1) hcontra
    simpa [c8Scene, c8Uniforms] using this.symm
  norm_num at h1

/-- C8 amended: with a live shader, a non-empty registry and an absent
tag, `SetShaderMaterial` overwrites the three material uniforms with the
fields of the freshly created local `OBJECT_MATERIAL` (indeterminate in
C++), rather than leaving the previous values in place. -/
theorem setShaderMaterial_missing_tag_writes_local (st : SceneState)
    (u : ShaderUniforms) (tag : String) (localMat : OBJECT_MATERIAL)
    (hsh : st.shader = some u) (hne : st.objectMaterials ≠ [])
    (habs : tag ∉ st.objectMaterials.map OBJECT_MATERIAL.tag) :
    SetShaderMaterial st tag localMat =
      some { st with shader := some { u with
               materialDiffuse := localMat.diffuseColor,
               materialSpecular := localMat.specularColor,
               materialShininess := localMat.shininess } } :=
  setShaderMaterial_absent_writes_localMat st u tag localMat hsh hne habs

/-- Witness for the amended C8 at a concrete scene. -/
theorem setShaderMaterial_missing_tag_writes_local_witness :
    SetShaderMaterial c8Scene "missing" c8Junk =
      some { c8Scene with shader := some { c8Uniforms with
               materialDiffuse := c8Junk.diffuseColor,
               materialSpecular := c8Junk.specularColor,
               materialShininess := c8Junk.shininess } } :=
  setShaderMaterial_missing_tag_writes_local c8Scene c8Uniforms "missing"
    c8Junk rfl (by decide) (by decide)

/-- C9 is false on the code: `PrepareScene` invokes
`DefineObjectMaterials()` twice, so in the registry state it reaches the
tag column is not duplicate-free — the entries at indices 0 and 9 are two
distinct entries both tagged "copper". -/
theorem prepareScene_materials_duplicate_tags :
    ¬ (PrepareSceneMaterials.map (fun m => m.tag)).Nodup ∧
    (PrepareSceneMaterials.map (fun m => m.tag)).get? 0 = some "copper" ∧
    (PrepareSceneMaterials.map (fun m => m.tag)).get? 9 = some "copper" := by
  decide

/-- C9 amended: after `PrepareScene`, every registered tag occurs exactly
twice (the nine built-in materials are appended twice); within one
`DefineObjectMaterials` call the tags are unique, and since the duplicate
entries are value-identical, first-match lookup still resolves each tag to
the intended material values. -/
theorem prepareScene_materials_each_tag_twice :
    ((PrepareSceneMaterials.map (fun m => m.tag)).all
      (fun t => (PrepareSceneMaterials.map (fun m => m.tag)).count t = 2))
        = true ∧
    ((DefineObjectMaterials []).map (fun m => m.tag)).Nodup ∧
    PrepareSceneMaterials =
      DefineObjectMaterials [] ++ DefineObjectMaterials [] := by
  refine ⟨by decide, by decide, ?_⟩
  simp [PrepareSceneMaterials, DefineObjectMaterials]

/-- C10: with a null shader-manager pointer, `SetTransformations`,
`SetShaderColor`, `SetShaderTexture` and `SetTextureUVScale` are guarded
no-ops — they write nothing and return normally — while
`SetShaderMaterial` has no null guard: as soon as the material registry is
non-empty (which makes `FindMaterial` report found), it dereferences the
null pointer (`none`). -/
theorem nullShader_guards_except_setShaderMaterial (st : SceneState)
    (hsh : st.shader = none) (scaleXYZ : Vec3) (cx sx cy sy cz sz : ℚ)
    (positionXYZ : Vec3) (r g b a uvU uvV : ℚ) (tag : String)
    (localMat : OBJECT_MATERIAL) :
    SetTransformations st scaleXYZ cx sx cy sy cz sz positionXYZ = some st ∧
    SetShaderColor st r g b a = some st ∧
    SetShaderTexture st tag = some st ∧
    SetTextureUVScale st uvU uvV = some st ∧
    (st.objectMaterials ≠ [] → SetShaderMaterial st tag localMat = none) := by
  refine ⟨?_, ?_, ?_, ?_, ?_⟩
  · rw [SetTransformations, hsh]
  · rw [SetShaderColor, hsh]
  · rw [SetShaderTexture, hsh]
  · rw [SetTextureUVScale, hsh]
  · intro hne
    have hlen : st.objectMaterials.length ≠ 0 := by
      simpa [List.length_eq_zero] using hne
    rw [SetShaderMaterial]
    simp only [FindMaterial, if_neg hlen, hsh]
    simp [Nat.pos_of_ne_zero hlen]

/-- A scene with a null shader pointer and a populated material registry,
used by the C10 witness. -/
def c10Scene : SceneState := ⟨none, [], DefineObjectMaterials []⟩

/-- The C10 witness's arbitrary content for the uninitialized local
material. -/
def c10Junk : OBJECT_MATERIAL := ⟨"junk", ⟨0, 0, 0⟩, ⟨0, 0, 0⟩, 0⟩

/-- Witness for C10 at a concrete scene: the four guarded setters return
the state unchanged, and `SetShaderMaterial` dereferences the null
pointer. -/
theorem nullShader_guards_except_setShaderMaterial_witness :
    SetTransformations c10Scene ⟨1, 1, 1⟩ 1 0 1 0 1 0 ⟨0, 0, 0⟩ =
      some c10Scene ∧
    SetShaderColor c10Scene 1 0 0 1 = some c10Scene ∧
    SetShaderTexture c10Scene "Copper" = some c10Scene ∧
    SetTextureUVScale c10Scene 2 2 = some c10Scene ∧
    SetShaderMaterial c10Scene "copper" c10Junk = none := by
  have h := nullShader_guards_except_setShaderMaterial c10Scene rfl
    ⟨1, 1, 1⟩ 1 0 1 0 1 0 ⟨0, 0, 0⟩ 1 0 0 1 2 2 "Copper" c10Junk
  have h5 := nullShader_guards_except_setShaderMaterial c10Scene rfl
    ⟨1, 1, 1⟩ 1 0 1 0 1 0 ⟨0, 0, 0⟩ 1 0 0 1 2 2 "copper" c10Junk
  exact ⟨h.1, h.2.1, h.2.2.1, h.2.2.2.1, h5.2.2.2.2 (by decide)⟩

/-- An arbitrary, deliberately non-baseline GL state used as the frame's
entry state in the C2 counterexample. -/
def c2Probe : RenderPassState :=
  ⟨true, BlendFactor.one, BlendFactor.one, false, false, true,
   CullFaceMode.front, false⟩

/-- C2 is false on the code: starting from the opaque baseline set at the
top of `RenderScene`, running the Opaque→Translucent→Opaque sequence does
not return every pass flag to its pre-sequence value — `GL_BLEND` is
enabled for the glass shade and the halo but never disabled again, so the
frame is presented with blending still on. -/
theorem renderPass_not_restored_counterexample :
    renderTranslucentSequence (opaqueReset c2Probe) ≠ opaqueReset c2Probe ∧
    (renderTranslucentSequence (opaqueReset c2Probe)).blendEnabled = true ∧
    (opaqueReset c2Probe).blendEnabled = false := by
  decide

/-- C2 amended: after the Opaque→Translucent→Opaque sequence, the blend
factors, depth write, depth test, cull enable and lighting flags all equal
their opaque-baseline values, but the blend-enable flag does not: it was
false at the baseline and is left true at the end of the frame (the code
never calls `glDisable(GL_BLEND)` after the translucent passes). -/
theorem renderPass_restored_except_blendEnable (s : RenderPassState) :
    (renderTranslucentSequence (opaqueReset s)).blendSrc =
        (opaqueReset s).blendSrc ∧
    (renderTranslucentSequence (opaqueReset s)).blendDst =
        (opaqueReset s).blendDst ∧
    (renderTranslucentSequence (opaqueReset s)).depthWriteEnabled =
        (opaqueReset s).depthWriteEnabled ∧
    (renderTranslucentSequence (opaqueReset s)).depthTestEnabled =
        (opaqueReset s).depthTestEnabled ∧
    (renderTranslucentSequence (opaqueReset s)).cullEnabled =
        (opaqueReset s).cullEnabled ∧
    (renderTranslucentSequence (opaqueReset s)).lightingEnabled =
        (opaqueReset s).lightingEnabled ∧
    (renderTranslucentSequence (opaqueReset s)).blendEnabled = true ∧
    (opaqueReset s).blendEnabled = false :=
  ⟨rfl, rfl, rfl, rfl, rfl, rfl, rfl, rfl⟩
